import Mathlib

/-!
Shallow embedding of `src/duckdb_tera_binding/src/lib.rs`, a C-ABI bridge
around the Tera template engine.  The binding's own logic (pointer/UTF-8
marshalling, JSON-root-to-context conversion, autoescape suffix-list
construction, error-chain formatting, `CString` encoding, and the paired
deallocator) is modelled concretely; the external collaborators
(`serde_json` parsing, `Tera::new`, `Tera::render`, `Tera::one_off`) are
abstracted as an environment record `Env`, since the spec treats them as
opaque collaborators specified only via their interfaces.

Strings owned by the binding are Lean `String`s; byte buffers that the
binding must validate (the optional template path and the autoescape
suffix entries, which cross the boundary as C strings) are `List Nat`
byte lists, decoded by a faithful model of Rust's UTF-8 validation.
-/

namespace TeraFfi

/-- Bytes of a NUL-terminated C string (the bytes before the terminator),
or `none` for a null pointer. -/
abbrev CBuf := Option (List Nat)

/-- One byte is a UTF-8 continuation byte (`0x80..=0xBF`). -/
def isCont (b : Nat) : Bool := 0x80 ≤ b && b ≤ 0xBF

/-- UTF-8 validation and decoding exactly as Rust's `str::from_utf8` /
`CStr::to_str` perform it: rejects overlong encodings, surrogates and
code points above `0x10FFFF`; returns the decoded scalar values. -/
def utf8Decode : List Nat → Option (List Nat)
  | [] => some []
  | b :: rest =>
    if b ≤ 0x7F then
      (utf8Decode rest).map (b :: ·)
    else if 0xC2 ≤ b && b ≤ 0xDF then
      match rest with
      | b1 :: r =>
        if isCont b1 then
          (utf8Decode r).map (((b - 0xC0) * 0x40 + (b1 - 0x80)) :: ·)
        else none
      | [] => none
    else if b == 0xE0 then
      match rest with
      | b1 :: b2 :: r =>
        if (0xA0 ≤ b1 && b1 ≤ 0xBF) && isCont b2 then
          (utf8Decode r).map
            (((b - 0xE0) * 0x1000 + (b1 - 0x80) * 0x40 + (b2 - 0x80)) :: ·)
        else none
      | _ => none
    else if (0xE1 ≤ b && b ≤ 0xEC) || (0xEE ≤ b && b ≤ 0xEF) then
      match rest with
      | b1 :: b2 :: r =>
        if isCont b1 && isCont b2 then
          (utf8Decode r).map
            (((b - 0xE0) * 0x1000 + (b1 - 0x80) * 0x40 + (b2 - 0x80)) :: ·)
        else none
      | _ => none
    else if b == 0xED then
      match rest with
      | b1 :: b2 :: r =>
        if (0x80 ≤ b1 && b1 ≤ 0x9F) && isCont b2 then
          (utf8Decode r).map
            (((b - 0xE0) * 0x1000 + (b1 - 0x80) * 0x40 + (b2 - 0x80)) :: ·)
        else none
      | _ => none
    else if b == 0xF0 then
      match rest with
      | b1 :: b2 :: b3 :: r =>
        if ((0x90 ≤ b1 && b1 ≤ 0xBF) && isCont b2) && isCont b3 then
          (utf8Decode r).map
            (((b - 0xF0) * 0x40000 + (b1 - 0x80) * 0x1000 +
              (b2 - 0x80) * 0x40 + (b3 - 0x80)) :: ·)
        else none
      | _ => none
    else if 0xF1 ≤ b && b ≤ 0xF3 then
      match rest with
      | b1 :: b2 :: b3 :: r =>
        if (isCont b1 && isCont b2) && isCont b3 then
          (utf8Decode r).map
            (((b - 0xF0) * 0x40000 + (b1 - 0x80) * 0x1000 +
              (b2 - 0x80) * 0x40 + (b3 - 0x80)) :: ·)
        else none
      | _ => none
    else if b == 0xF4 then
      match rest with
      | b1 :: b2 :: b3 :: r =>
        if ((0x80 ≤ b1 && b1 ≤ 0x8F) && isCont b2) && isCont b3 then
          (utf8Decode r).map
            (((b - 0xF0) * 0x40000 + (b1 - 0x80) * 0x1000 +
              (b2 - 0x80) * 0x40 + (b3 - 0x80)) :: ·)
        else none
      | _ => none
    else none

/-- The decoded text of a byte list, as a Lean `String` (scalar values were
validated by `utf8Decode`, so `Char.ofNat` loses nothing). -/
def utf8DecodeStr (bs : List Nat) : Option String :=
  (utf8Decode bs).map (fun cps => String.mk (cps.map Char.ofNat))

/-- `c_char_to_string` from the source: null pointer ⇒ `None`; otherwise
`CStr::to_str`, with invalid UTF-8 mapped to `None`. -/
def c_char_to_string (template_path : CBuf) : Option String :=
  match template_path with
  | none => none
  | some bs => utf8DecodeStr bs

/-- serde_json's value model, as far as the binding inspects it
(numbers are opaque payloads to the binding; `Int` stands in). -/
inductive Json where
  | null : Json
  | bool : Bool → Json
  | num : Int → Json
  | str : String → Json
  | arr : List Json → Json
  | obj : List (String × Json) → Json
deriving Repr

/-- `tera::Context::insert`: map-style insert into the context,
overwriting an existing entry with the same key. -/
def ctxInsert (ctx : List (String × Json)) (k : String) (v : Json) :
    List (String × Json) :=
  if ctx.any (fun p => p.1 == k) then
    ctx.map (fun p => if p.1 == k then (k, v) else p)
  else ctx ++ [(k, v)]

/-- Lines 75–80 of the source: a fresh `Context`, and when the parsed root
is an object, each key/value entry inserted; any other root leaves the
context empty. -/
def buildContext : Json → List (String × Json)
  | Json.obj fields => fields.foldl (fun c kv => ctxInsert c kv.1 kv.2) []
  | _ => []

/-- `true` when the JSON root is an object. -/
def isObjRoot : Json → Bool
  | Json.obj _ => true
  | _ => false

/-- A Rust `std::error::Error` value: a display message plus the optional
nested `source()` error. -/
inductive RsError where
  | mk : String → Option RsError → RsError
deriving Repr

/-- The display message of an error. -/
def RsError.msg : RsError → String
  | .mk m _ => m

/-- The nested `source()` of an error. -/
def RsError.src : RsError → Option RsError
  | .mk _ s => s

/-- The `while let Some(source) = source_opt` loop of the source: one
`"Caused by: "` line per nested cause, outermost first. -/
def causeLines : RsError → List String
  | .mk _ none => []
  | .mk _ (some s) => ("Caused by: " ++ s.msg) :: causeLines s

/-- Lines 138–151 of the source: the render-failure diagnostic, newline-joined,
first the top-level message with its prefix, then the cause lines. -/
def formatRenderError (e : RsError) : String :=
  String.intercalate "\n" (("Tera render error: " ++ e.msg) :: causeLines e)

/-- An error whose `source()` chain carries exactly the messages `cs`,
below the top-level message `m`. -/
def chainOf (m : String) : List String → RsError
  | [] => .mk m none
  | c :: cs => .mk m (some (chainOf c cs))

/-- `true` when the string contains an interior NUL byte, the only input
`CString::new` rejects. -/
def hasNul (s : String) : Bool := s.data.any (fun c => c.toNat == 0)

/-- `CString::new`: succeeds exactly on NUL-free text. -/
def cstringNew (s : String) : Option String :=
  if hasNul s then none else some s

/-- The observable outcome of one `render_template` call: a returned
`ResultCString::Ok`, a returned `ResultCString::Err`, or a process abort
(an `unwrap()` panic crossing the `extern "C"` boundary). -/
inductive CallOutcome where
  | ok : String → CallOutcome
  | err : String → CallOutcome
  | crash : CallOutcome
deriving Repr, DecidableEq

/-- `CString::new(output).unwrap()` then `ResultCString::Ok(...into_raw())`. -/
def encodeOk (s : String) : CallOutcome :=
  match cstringNew s with
  | some t => .ok t
  | none => .crash

/-- `CString::new(msg).unwrap()` then `ResultCString::Err(...into_raw())`. -/
def encodeErr (s : String) : CallOutcome :=
  match cstringNew s with
  | some t => .err t
  | none => .crash

/-- The final `match result` of the source: a successful render is encoded
as `Ok`, a render failure is formatted by the error-chain walk and encoded
as `Err`. -/
def finish : Except RsError String → CallOutcome
  | .ok output => encodeOk output
  | .error e => encodeErr (formatRenderError e)

/-- Lines 98–119 of the source: the suffix list handed to
`tera.autoescape_on`.  Escaping disabled, or zero suffix count, gives the
empty list; otherwise each non-null entry is decoded (`unwrap_or_default`
turns invalid UTF-8 into `""`) and null entries are skipped. -/
def effectiveSuffixes (autoescape : Bool) (entries : List CBuf) :
    List String :=
  if !autoescape || entries.length == 0 then []
  else entries.filterMap (fun e =>
    match e with
    | none => none
    | some bs => some ((utf8DecodeStr bs).getD ""))

/-- `pre` read forwards equals the leading characters of `l`. -/
def leadMatch : List Char → List Char → Bool
  | [], _ => true
  | _ :: _, [] => false
  | a :: asx, b :: bsx => a == b && leadMatch asx bsx

/-- Rust's `str::ends_with` on the model's strings. -/
def strEndsWith (name sfx : String) : Bool :=
  leadMatch sfx.data.reverse name.data.reverse

/-- Modelled from the spec: Tera (an external collaborator, not under
`src/`) applies autoescaping to a named template exactly when the
template's name ends with one of the configured suffixes; an empty
suffix list therefore escapes nothing. -/
def teraEscapes (suffixes : List String) (name : String) : Bool :=
  suffixes.any (fun s => strEndsWith name s)

/-- The external collaborators of one call, abstracted: serde_json's
parser, `Tera::new` on a glob pattern, `Tera::render` of a named template
by the engine loaded from a pattern and configured with a suffix list,
and `Tera::one_off`.  Error values carry Rust error chains; the parse
error carries its display message. -/
structure Env where
  parseJson : String → Except String Json
  teraNew : String → Except RsError Unit
  teraRender : String → List String → String → List (String × Json) →
    Except RsError String
  teraOneOff : String → List (String × Json) → Bool → Except RsError String

/-- The path-mode arm of the source's `match`: `Tera::new(path)`, an early
`Err` return with the `"Template loading error: "` prefix on failure,
otherwise autoescape configuration followed by a named-template render. -/
def runPath (env : Env) (name : String) (context : List (String × Json))
    (path : String) (autoescape : Bool) (autoescape_on : List CBuf) :
    CallOutcome :=
  match env.teraNew path with
  | .error e => encodeErr ("Template loading error: " ++ e.msg)
  | .ok _ =>
    finish (env.teraRender path (effectiveSuffixes autoescape autoescape_on)
      name context)

/-- The `_` arm of the source's `match`: `Tera::one_off` on the template
text with the uniform escape flag. -/
def runInline (env : Env) (src : String) (context : List (String × Json))
    (autoescape : Bool) : CallOutcome :=
  finish (env.teraOneOff src context autoescape)

/-- `render_template` (lines 48–154 of the source): parse the JSON context
(failing with the `"Invalid JSON: "` prefix), build the render context,
then dispatch on `Some(ref path) if !path.is_empty()` between path mode
and inline mode. -/
def render_template (env : Env) (template_str json_str : String)
    (template_path : CBuf) (autoescape : Bool)
    (autoescape_on : List CBuf) : CallOutcome :=
  match env.parseJson json_str with
  | .error e => encodeErr ("Invalid JSON: " ++ e)
  | .ok context_value =>
    let context := buildContext context_value
    match c_char_to_string template_path with
    | some path =>
      if path = "" then runInline env template_str context autoescape
      else runPath env template_str context path autoescape autoescape_on
    | none => runInline env template_str context autoescape

/-- The guard of the source's `match`: path mode is taken exactly when the
marshalled path is present and non-empty. -/
def pathModeSelected (template_path : CBuf) : Bool :=
  match c_char_to_string template_path with
  | some path => path != ""
  | none => false

/-- A C pointer: null or an address. -/
inductive CPtr where
  | null : CPtr
  | addr : Nat → CPtr
deriving Repr, DecidableEq

/-- The `#[repr(C)]` tagged union returned over the boundary, at the
pointer level consumed by the deallocator. -/
inductive ResultCString where
  | ok : CPtr → ResultCString
  | err : CPtr → ResultCString
deriving Repr, DecidableEq

/-- The set of live cross-boundary allocations, as a list of addresses. -/
abbrev Heap := List Nat

/-- `CString::from_raw` reclaiming one allocation: defined (the address is
removed from the heap) only when the address is currently allocated;
`none` models the undefined behavior of a double free. -/
def reclaim (h : Heap) (a : Nat) : Option Heap :=
  if List.contains h a then some (List.erase h a) else none

/-- `free_result_cstring` (lines 169–182 of the source): match either
variant, and reclaim the pointer only when it is non-null; a null pointer
is a no-op. -/
def free_result_cstring (h : Heap) (r : ResultCString) : Option Heap :=
  match r with
  | .ok p =>
    match p with
    | .null => some h
    | .addr a => reclaim h a
  | .err p =>
    match p with
    | .null => some h
    | .addr a => reclaim h a

/-- A concrete environment used to exercise the theorems: serde_json and
Tera behaviors on a handful of concrete inputs, with realistic messages. -/
def envA : Env where
  parseJson s :=
    if s = "{}" then .ok (Json.obj [])
    else if s = "\x7b\"name\": \"World\"\x7d" then
      .ok (Json.obj [("name", Json.str "World")])
    else if s = "[1,2,3]" then
      .ok (Json.arr [Json.num 1, Json.num 2, Json.num 3])
    else .error "expected value at line 1 column 1"
  teraNew path :=
    if path = "templates/*" then .ok ()
    else .error (RsError.mk ("Directory " ++ path ++ " not found") none)
  teraRender _path _sfx name _ctx :=
    if name = "page.html" then .ok "rendered page"
    else .error (chainOf "Failed to render 'missing.html'"
      ["Template 'missing.html' not found"])
  teraOneOff src _ctx _esc :=
    if src = "\x7b\x7b missing \x7d\x7d" then
      .error (chainOf "Failed to render '__tera_one_off'"
        ["Variable `missing` not found in context while rendering '__tera_one_off'"])
    else .ok src

/-! ### Helper lemmas -/

theorem encodeOk_eq_of_not_nul (s : String) (h : hasNul s = false) :
    encodeOk s = .ok s := by
  simp [encodeOk, cstringNew, h]

theorem encodeErr_eq_of_not_nul (s : String) (h : hasNul s = false) :
    encodeErr s = .err s := by
  simp [encodeErr, cstringNew, h]

theorem render_err_dispatch (env : Env) (t j : String) (tp : CBuf) (a : Bool)
    (ao : List CBuf) (e : String) (h : env.parseJson j = .error e) :
    render_template env t j tp a ao = encodeErr ("Invalid JSON: " ++ e) := by
  unfold render_template
  rw [h]

theorem render_dispatch (env : Env) (t j : String) (tp : CBuf) (a : Bool)
    (ao : List CBuf) (v : Json) (h : env.parseJson j = .ok v) :
    render_template env t j tp a ao =
      if pathModeSelected tp then
        runPath env t (buildContext v) ((c_char_to_string tp).getD "") a ao
      else runInline env t (buildContext v) a := by
  unfold render_template pathModeSelected
  rw [h]
  cases hc : c_char_to_string tp with
  | none => simp
  | some p =>
    by_cases hp : p = ""
    · subst hp; simp
    · simp [hp]

theorem foldl_ctxInsert_nodup (fields acc : List (String × Json))
    (h : (acc.map Prod.fst ++ fields.map Prod.fst).Nodup) :
    fields.foldl (fun c kv => ctxInsert c kv.1 kv.2) acc = acc ++ fields := by
  induction fields generalizing acc with
  | nil => simp
  | cons kv rest ih =>
    have hdisj := (List.nodup_append.mp h).2.2
    have hk : ∀ p ∈ acc, (p.1 == kv.1) = false := by
      intro p hp
      have : p.1 ∈ acc.map Prod.fst := List.mem_map_of_mem _ hp
      have hne : p.1 ≠ kv.1 := by
        intro hEq
        exact hdisj this (by simp [hEq])
      simpa using hne
    have hins : ctxInsert acc kv.1 kv.2 = acc ++ [kv] := by
      unfold ctxInsert
      have : acc.any (fun p => p.1 == kv.1) = false := by
        simp only [List.any_eq_false]
        intro p hp
        simp [hk p hp]
      simp [this]
    have h' : ((acc ++ [kv]).map Prod.fst ++ rest.map Prod.fst).Nodup := by
      simpa [List.append_assoc] using h
    calc (kv :: rest).foldl (fun c p => ctxInsert c p.1 p.2) acc
        = rest.foldl (fun c p => ctxInsert c p.1 p.2) (ctxInsert acc kv.1 kv.2) := rfl
      _ = rest.foldl (fun c p => ctxInsert c p.1 p.2) (acc ++ [kv]) := by rw [hins]
      _ = (acc ++ [kv]) ++ rest := ih _ h'
      _ = acc ++ kv :: rest := by simp

theorem chainOf_msg (m : String) (cs : List String) :
    (chainOf m cs).msg = m := by
  cases cs <;> rfl

theorem causeLines_chainOf (m : String) (cs : List String) :
    causeLines (chainOf m cs) = cs.map (fun c => "Caused by: " ++ c) := by
  induction cs generalizing m with
  | nil => rfl
  | cons c rest ih =>
    show ("Caused by: " ++ (chainOf c rest).msg) :: causeLines (chainOf c rest) = _
    rw [chainOf_msg, ih]
    rfl

theorem formatRenderError_chainOf (m : String) (cs : List String) :
    formatRenderError (chainOf m cs) =
      String.intercalate "\n"
        (("Tera render error: " ++ m) :: cs.map (fun c => "Caused by: " ++ c)) := by
  unfold formatRenderError
  rw [chainOf_msg, causeLines_chainOf]

/-! ### Claims -/

/-- C1: rendering runs in path mode exactly when the template-path pointer
is non-null, its bytes decode as valid UTF-8, and the decoded string is
non-empty; in every other case (null pointer, invalid UTF-8, empty
string) the call renders inline via a one-off render. -/
theorem c1_path_mode_selection (tp : CBuf) :
    (pathModeSelected tp = true ↔
      ∃ bs s, tp = some bs ∧ utf8DecodeStr bs = some s ∧ s ≠ "")
    ∧ ∀ (env : Env) (t j : String) (a : Bool) (ao : List CBuf) (v : Json),
      env.parseJson j = .ok v →
      (pathModeSelected tp = true →
        render_template env t j tp a ao =
          runPath env t (buildContext v) ((c_char_to_string tp).getD "") a ao)
      ∧ (pathModeSelected tp = false →
        render_template env t j tp a ao = runInline env t (buildContext v) a) := by
  constructor
  · unfold pathModeSelected c_char_to_string
    cases tp with
    | none =>
      simp only [Bool.false_eq_true, false_iff]
      rintro ⟨bs, s, h, -⟩
      exact Option.noConfusion h
    | some bs =>
      cases hd : utf8DecodeStr bs with
      | none =>
        simp only [hd, Bool.false_eq_true, false_iff]
        rintro ⟨bs', s, heq, hdec, -⟩
        have hb : bs' = bs := by injection heq.symm
        subst hb
        rw [hd] at hdec
        exact Option.noConfusion hdec
      | some s =>
        simp only [hd, bne_iff_ne, ne_eq]
        constructor
        · intro hne
          exact ⟨bs, s, rfl, hd, hne⟩
        · rintro ⟨bs', s', heq, hdec, hne⟩
          have hb : bs' = bs := by
            injection heq.symm
          subst hb
          rw [hd] at hdec
          have : s' = s := by injection hdec.symm
          subst this
          exact hne
  · intro env t j a ao v h
    constructor <;> intro hm <;> rw [render_dispatch env t j tp a ao v h] <;>
      simp [hm]

theorem c1_witness :
    pathModeSelected (some [116, 112, 108]) = true ∧
    render_template envA "page.html" "{}" (some [116, 112, 108]) false [] =
      runPath envA "page.html" []
        ((c_char_to_string (some [116, 112, 108])).getD "") false [] := by
  refine ⟨(c1_path_mode_selection (some [116, 112, 108])).1.mpr
    ⟨[116, 112, 108], "tpl", rfl, by decide, by decide⟩, ?_⟩
  exact ((c1_path_mode_selection (some [116, 112, 108])).2 envA "page.html" "{}"
    false [] (Json.obj []) rfl).1 (by decide)

/-- C2: with the autoescape flag off or an empty suffix list, no template is
escaped; with the flag on and a non-empty list of well-formed (non-null,
valid UTF-8) suffix entries, a template is escaped exactly when its
resolved name ends with one of the decoded suffixes. -/
theorem c2_autoescape_policy (a : Bool) (entries : List CBuf) (name : String) :
    ((a = false ∨ entries = []) →
      teraEscapes (effectiveSuffixes a entries) name = false)
    ∧ (a = true → entries ≠ [] →
      (∀ e ∈ entries, ∃ bs s, e = some bs ∧ utf8DecodeStr bs = some s) →
      (teraEscapes (effectiveSuffixes a entries) name = true ↔
        ∃ bs s, some bs ∈ entries ∧ utf8DecodeStr bs = some s ∧
          strEndsWith name s = true)) := by
  constructor
  · rintro (ha | he)
    · subst ha; simp [effectiveSuffixes, teraEscapes]
    · subst he; simp [effectiveSuffixes, teraEscapes]
  · intro ha hne hvalid
    subst ha
    have heff : effectiveSuffixes true entries =
        entries.filterMap (fun e =>
          match e with
          | none => none
          | some bs => some ((utf8DecodeStr bs).getD "")) := by
      unfold effectiveSuffixes
      simp [hne, List.length_eq_zero]
    rw [heff]
    unfold teraEscapes
    rw [List.any_eq_true]
    constructor
    · rintro ⟨s, hs, hend⟩
      rcases List.mem_filterMap.mp hs with ⟨e, hemem, hfe⟩
      rcases hvalid e hemem with ⟨bs, s', heq, hdec⟩
      subst heq
      have : s = s' := by
        simp [hdec] at hfe
        exact hfe.symm
      subst this
      exact ⟨bs, s, hemem, hdec, hend⟩
    · rintro ⟨bs, s, hmem, hdec, hend⟩
      refine ⟨s, List.mem_filterMap.mpr ⟨some bs, hmem, ?_⟩, hend⟩
      simp [hdec]

theorem c2_witness :
    teraEscapes (effectiveSuffixes true [some [104, 116, 109, 108]]) "page.html"
      = true ∧
    teraEscapes (effectiveSuffixes true [some [104, 116, 109, 108]]) "page.txt"
      = false ∧
    teraEscapes (effectiveSuffixes false [some [104, 116, 109, 108]]) "page.html"
      = false := by
  have hvalid : ∀ e ∈ [some [104, 116, 109, 108]],
      ∃ bs s, e = some bs ∧ utf8DecodeStr bs = some s := by
    intro e he
    simp only [List.mem_singleton] at he
    subst he
    exact ⟨[104, 116, 109, 108], "html", rfl, by decide⟩
  refine ⟨?_, ?_, ?_⟩
  · exact ((c2_autoescape_policy true [some [104, 116, 109, 108]] "page.html").2
      rfl (by decide) hvalid).mpr ⟨[104, 116, 109, 108], "html", by decide,
        by decide, by decide⟩
  · by_contra hcon
    have hb : teraEscapes (effectiveSuffixes true [some [104, 116, 109, 108]])
        "page.txt" = true := by
      revert hcon
      cases teraEscapes (effectiveSuffixes true [some [104, 116, 109, 108]])
        "page.txt" <;> simp
    rcases ((c2_autoescape_policy true [some [104, 116, 109, 108]] "page.txt").2
      rfl (by decide) hvalid).mp hb with ⟨bs, s, hmem, hdec, hend⟩
    simp only [List.mem_singleton, Option.some.injEq] at hmem
    subst hmem
    have hs : s = "html" := by
      have : utf8DecodeStr [104, 116, 109, 108] = some "html" := by decide
      rw [this] at hdec
      exact (Option.some.injEq _ _ ▸ hdec.symm :)
    subst hs
    exact absurd hend (by decide)
  · exact (c2_autoescape_policy false [some [104, 116, 109, 108]] "page.html").1
      (Or.inl rfl)

/-- C3: when the context buffer fails to parse as JSON, the call returns a
failure whose text is exactly the parser's diagnostic behind the
"Invalid JSON: " prefix, and the outcome is the same for every behavior
of the template loader and renderers — the parse failure short-circuits
the rest of the pipeline. -/
theorem c3_invalid_json_short_circuits (env : Env) (t j : String) (tp : CBuf)
    (a : Bool) (ao : List CBuf) (e : String)
    (hp : env.parseJson j = .error e)
    (hnul : hasNul ("Invalid JSON: " ++ e) = false) :
    ∀ nf rf gf,
      render_template
        { env with teraNew := nf, teraRender := rf, teraOneOff := gf }
        t j tp a ao = .err ("Invalid JSON: " ++ e) := by
  intro nf rf gf
  rw [render_err_dispatch
    { env with teraNew := nf, teraRender := rf, teraOneOff := gf }
    t j tp a ao e hp, encodeErr_eq_of_not_nul _ hnul]

theorem c3_witness :
    render_template
      { envA with
          teraNew := (fun _ => .ok ()),
          teraRender := (fun _ _ _ _ => .ok "X"),
          teraOneOff := (fun _ _ _ => .ok "X") }
      "Hello, \x7b\x7b name \x7d\x7d!" "not valid json" none false [] =
      .err "Invalid JSON: expected value at line 1 column 1" :=
  c3_invalid_json_short_circuits envA "Hello, \x7b\x7b name \x7d\x7d!" "not valid json"
    none false [] "expected value at line 1 column 1" rfl (by decide) _ _ _

/-- C4: a JSON object root contributes each of its entries to the render
context; any non-object root yields an empty context with no error, and
rendering proceeds with that empty context. -/
theorem c4_context_from_root (env : Env) (t j : String) (tp : CBuf) (a : Bool)
    (ao : List CBuf) (v : Json) (h : env.parseJson j = .ok v) :
    (∀ fields, v = Json.obj fields → (fields.map Prod.fst).Nodup →
      buildContext v = fields)
    ∧ (isObjRoot v = false → buildContext v = [] ∧
      render_template env t j tp a ao =
        if pathModeSelected tp then
          runPath env t [] ((c_char_to_string tp).getD "") a ao
        else runInline env t [] a) := by
  constructor
  · intro fields hv hnd
    subst hv
    show fields.foldl (fun c kv => ctxInsert c kv.1 kv.2) [] = fields
    have := foldl_ctxInsert_nodup fields [] (by simpa using hnd)
    simpa using this
  · intro hobj
    have hempty : buildContext v = [] := by
      cases v <;> simp [isObjRoot] at hobj ⊢ <;> rfl
    refine ⟨hempty, ?_⟩
    rw [render_dispatch env t j tp a ao v h, hempty]

theorem c4_witness :
    buildContext (Json.obj [("name", Json.str "World")]) =
      [("name", Json.str "World")] ∧
    buildContext (Json.arr [Json.num 1, Json.num 2, Json.num 3]) = [] ∧
    render_template envA "hi" "[1,2,3]" none false [] =
      if pathModeSelected none then
        runPath envA "hi" [] ((c_char_to_string none).getD "") false []
      else runInline envA "hi" [] false := by
  refine ⟨?_, ?_⟩
  · exact (c4_context_from_root envA "t" "\x7b\"name\": \"World\"\x7d" none false []
      (Json.obj [("name", Json.str "World")]) rfl).1 _ rfl (by decide)
  · exact (c4_context_from_root envA "hi" "[1,2,3]" none false []
      (Json.arr [Json.num 1, Json.num 2, Json.num 3]) rfl).2 rfl

/-- C5: a render failure surfaces as one diagnostic whose first line is
"Tera render error: " plus the top-level message, followed by one
"Caused by: " line per nested cause, joined by newlines in
outermost-to-innermost order, in both inline and path mode. -/
theorem c5_error_chain_format (env : Env) (t j : String) (tp : CBuf) (a : Bool)
    (ao : List CBuf) (v : Json) (m : String) (cs : List String) (path : String)
    (hparse : env.parseJson j = .ok v)
    (hnul : hasNul (String.intercalate "\n"
      (("Tera render error: " ++ m) :: cs.map (fun c => "Caused by: " ++ c)))
      = false) :
    formatRenderError (chainOf m cs) =
      String.intercalate "\n"
        (("Tera render error: " ++ m) :: cs.map (fun c => "Caused by: " ++ c))
    ∧ (pathModeSelected tp = false →
      env.teraOneOff t (buildContext v) a = .error (chainOf m cs) →
      render_template env t j tp a ao =
        .err (String.intercalate "\n"
          (("Tera render error: " ++ m) ::
            cs.map (fun c => "Caused by: " ++ c))))
    ∧ (c_char_to_string tp = some path → path ≠ "" →
      env.teraNew path = .ok () →
      env.teraRender path (effectiveSuffixes a ao) t (buildContext v) =
        .error (chainOf m cs) →
      render_template env t j tp a ao =
        .err (String.intercalate "\n"
          (("Tera render error: " ++ m) ::
            cs.map (fun c => "Caused by: " ++ c)))) := by
  refine ⟨formatRenderError_chainOf m cs, ?_, ?_⟩
  · intro hmode hrender
    rw [render_dispatch env t j tp a ao v hparse, hmode,
      if_neg Bool.false_ne_true]
    unfold runInline
    rw [hrender]
    show encodeErr (formatRenderError (chainOf m cs)) = _
    rw [formatRenderError_chainOf]
    exact encodeErr_eq_of_not_nul _ hnul
  · intro hpath hne hnew hrender
    have hm : pathModeSelected tp = true := by
      unfold pathModeSelected
      rw [hpath]
      simp [hne]
    rw [render_dispatch env t j tp a ao v hparse, hm, if_pos rfl, hpath]
    simp only [Option.getD_some]
    unfold runPath
    rw [hnew]
    show finish (env.teraRender path (effectiveSuffixes a ao) t
      (buildContext v)) = _
    rw [hrender]
    show encodeErr (formatRenderError (chainOf m cs)) = _
    rw [formatRenderError_chainOf]
    exact encodeErr_eq_of_not_nul _ hnul

theorem c5_witness :
    render_template envA "\x7b\x7b missing \x7d\x7d" "{}" none false [] =
      .err (String.intercalate "\n"
        (("Tera render error: " ++ "Failed to render '__tera_one_off'") ::
          ["Variable `missing` not found in context while rendering '__tera_one_off'"].map
            (fun c => "Caused by: " ++ c))) :=
  (c5_error_chain_format envA "\x7b\x7b missing \x7d\x7d" "{}" none false [] (Json.obj [])
    "Failed to render '__tera_one_off'"
    ["Variable `missing` not found in context while rendering '__tera_one_off'"]
    "" rfl (by decide)).2.1 rfl rfl

theorem finish_encoded (r : Except RsError String) :
    (∃ s, finish r = encodeOk s) ∨ (∃ s, finish r = encodeErr s) := by
  cases r with
  | ok o => exact Or.inl ⟨o, rfl⟩
  | error e => exact Or.inr ⟨formatRenderError e, rfl⟩

theorem render_template_encoded (env : Env) (t j : String) (tp : CBuf)
    (a : Bool) (ao : List CBuf) :
    (∃ s, render_template env t j tp a ao = encodeOk s) ∨
    (∃ s, render_template env t j tp a ao = encodeErr s) := by
  cases hpj : env.parseJson j with
  | error e =>
    rw [render_err_dispatch env t j tp a ao e hpj]
    exact Or.inr ⟨_, rfl⟩
  | ok v =>
    rw [render_dispatch env t j tp a ao v hpj]
    by_cases hm : pathModeSelected tp = true
    · rw [if_pos hm]
      unfold runPath
      cases hnew : env.teraNew ((c_char_to_string tp).getD "") with
      | error e => exact Or.inr ⟨_, rfl⟩
      | ok u => exact finish_encoded _
    · rw [if_neg hm]
      exact finish_encoded _

/-- C6 counterexample: a rendered output containing an interior NUL byte
makes `CString::new(output).unwrap()` panic, so the call crashes instead
of substituting a fallback message: the claim's "never terminates the
process" is false on the code. -/
theorem c6_counterexample :
    render_template envA "hello\u0000world" "{}" none false [] =
      CallOutcome.crash := by
  decide

/-- C6 (amended): the caller receives a well-formed result (an `Ok` or
`Err` whose text is NUL-free) in every case except when the text to be
returned contains an interior NUL byte, in which case the `unwrap()` on
`CString::new` panics and the process crashes — no fallback message is
substituted. -/
theorem c6_outcome_shape (env : Env) (t j : String) (tp : CBuf) (a : Bool)
    (ao : List CBuf) :
    (∃ s, render_template env t j tp a ao = .ok s ∧ hasNul s = false)
    ∨ (∃ s, render_template env t j tp a ao = .err s ∧ hasNul s = false)
    ∨ render_template env t j tp a ao = .crash := by
  rcases render_template_encoded env t j tp a ao with ⟨s, hs⟩ | ⟨s, hs⟩
  · by_cases hn : hasNul s = true
    · right; right
      rw [hs]
      simp [encodeOk, cstringNew, hn]
    · left
      have hn' : hasNul s = false := by simpa using hn
      exact ⟨s, by rw [hs, encodeOk_eq_of_not_nul s hn'], hn'⟩
  · by_cases hn : hasNul s = true
    · right; right
      rw [hs]
      simp [encodeErr, cstringNew, hn]
    · right; left
      have hn' : hasNul s = false := by simpa using hn
      exact ⟨s, by rw [hs, encodeErr_eq_of_not_nul s hn'], hn'⟩

/-- C7: in path mode, when loading the template set fails, the call
returns a failure whose text is the loader's message behind the
"Template loading error: " prefix, and the outcome is the same for every
behavior of the renderers — no render is attempted after a load
failure. -/
theorem c7_template_load_error (env : Env) (t j : String) (tp : CBuf)
    (a : Bool) (ao : List CBuf) (v : Json) (path : String) (er : RsError)
    (hparse : env.parseJson j = .ok v)
    (hpath : c_char_to_string tp = some path) (hne : path ≠ "")
    (hload : env.teraNew path = .error er)
    (hnul : hasNul ("Template loading error: " ++ er.msg) = false) :
    ∀ rf gf,
      render_template { env with teraRender := rf, teraOneOff := gf }
        t j tp a ao = .err ("Template loading error: " ++ er.msg) := by
  intro rf gf
  have hm : pathModeSelected tp = true := by
    unfold pathModeSelected
    rw [hpath]
    simp [hne]
  rw [render_dispatch { env with teraRender := rf, teraOneOff := gf }
    t j tp a ao v hparse, hm, if_pos rfl, hpath]
  simp only [Option.getD_some]
  unfold runPath
  have hload' : ({ env with teraRender := rf, teraOneOff := gf } : Env).teraNew
      path = .error er := hload
  rw [hload']
  show encodeErr ("Template loading error: " ++ er.msg) = _
  exact encodeErr_eq_of_not_nul _ hnul

theorem c7_witness :
    render_template
      { envA with
          teraRender := (fun _ _ _ _ => .ok "X"),
          teraOneOff := (fun _ _ _ => .ok "X") }
      "page.html" "{}"
      (some [47, 110, 111, 110, 101, 120, 105, 115, 116, 101, 110, 116, 47, 42])
      false [] =
      .err ("Template loading error: " ++
        (RsError.mk "Directory /nonexistent/* not found" none).msg) :=
  c7_template_load_error envA "page.html" "{}"
    (some [47, 110, 111, 110, 101, 120, 105, 115, 116, 101, 110, 116, 47, 42])
    false [] (Json.obj []) "/nonexistent/*"
    (RsError.mk "Directory /nonexistent/* not found" none)
    rfl (by decide) (by decide) rfl (by decide) _ _

/-- C8: in inline mode the outcome does not depend on the autoescape
suffix list at all — any two calls differing only in that list agree —
and the inline render is the one-off render controlled solely by the
boolean escape flag. -/
theorem c8_inline_ignores_suffix_list (env : Env) (t j : String) (tp : CBuf)
    (a : Bool) (ao ao' : List CBuf) (h : pathModeSelected tp = false) :
    render_template env t j tp a ao = render_template env t j tp a ao'
    ∧ ∀ v, env.parseJson j = .ok v →
      render_template env t j tp a ao =
        finish (env.teraOneOff t (buildContext v) a) := by
  have key : ∀ (ao0 : List CBuf) (v : Json), env.parseJson j = .ok v →
      render_template env t j tp a ao0 =
        finish (env.teraOneOff t (buildContext v) a) := by
    intro ao0 v hv
    rw [render_dispatch env t j tp a ao0 v hv, h, if_neg Bool.false_ne_true]
    rfl
  constructor
  · cases hpj : env.parseJson j with
    | error e =>
      rw [render_err_dispatch env t j tp a ao e hpj,
        render_err_dispatch env t j tp a ao' e hpj]
    | ok v => rw [key ao v hpj, key ao' v hpj]
  · exact key ao

theorem c8_witness :
    render_template envA "hi" "{}" (some [255]) true [some [104, 116, 109, 108]]
      = render_template envA "hi" "{}" (some [255]) true [] :=
  (c8_inline_ignores_suffix_list envA "hi" "{}" (some [255]) true
    [some [104, 116, 109, 108]] [] (by decide)).1

theorem filterMap_decode_eq (l : List CBuf) :
    (l.filterMap fun e =>
      match e with
      | none => none
      | some bs => some ((utf8DecodeStr bs).getD "")) =
    (l.filterMap id).map (fun b => (utf8DecodeStr b).getD "") := by
  induction l with
  | nil => rfl
  | cons e rest ih =>
    cases e with
    | none => simpa using ih
    | some bs => simpa using ih

/-- C9 (implicit): when building the path-mode suffix list with the flag
on and a non-zero count, null entries are skipped and an invalid-UTF-8
entry becomes the empty string; since every template name ends with the
empty suffix, one invalid-UTF-8 entry makes every template escaped. -/
theorem c9_suffix_entry_edge_cases (entries : List CBuf) (bs : List Nat)
    (name : String) :
    effectiveSuffixes true entries =
      (entries.filterMap id).map (fun b => (utf8DecodeStr b).getD "")
    ∧ (some bs ∈ entries → utf8DecodeStr bs = none →
      teraEscapes (effectiveSuffixes true entries) name = true) := by
  have part1 : effectiveSuffixes true entries =
      (entries.filterMap id).map (fun b => (utf8DecodeStr b).getD "") := by
    by_cases he : entries = []
    · subst he; rfl
    · unfold effectiveSuffixes
      simp only [Bool.not_true, Bool.false_or]
      rw [if_neg (by simp [List.length_eq_zero, he])]
      exact filterMap_decode_eq entries
  refine ⟨part1, ?_⟩
  intro hmem hdec
  rw [part1]
  unfold teraEscapes
  rw [List.any_eq_true]
  refine ⟨"", ?_, rfl⟩
  refine List.mem_map.mpr ⟨bs, ?_, by rw [hdec]; rfl⟩
  exact List.mem_filterMap.mpr ⟨some bs, hmem, rfl⟩

theorem c9_witness :
    teraEscapes
      (effectiveSuffixes true [none, some [104, 116, 109, 108], some [255]])
      "page.txt" = true :=
  (c9_suffix_entry_edge_cases [none, some [104, 116, 109, 108], some [255]]
    [255] "page.txt").2 (by decide) (by decide)

/-- C10: a single release of a previously returned result succeeds for
both the `Ok` and the `Err` variant, and releasing a result holding a
null pointer is a no-op rather than a crash. -/
theorem c10_release_once (h : Heap) (a : Nat) (ha : a ∈ h) :
    (free_result_cstring h (ResultCString.ok (CPtr.addr a))).isSome = true
    ∧ (free_result_cstring h (ResultCString.err (CPtr.addr a))).isSome = true
    ∧ free_result_cstring h (ResultCString.ok CPtr.null) = some h
    ∧ free_result_cstring h (ResultCString.err CPtr.null) = some h := by
  have hc : List.contains h a = true := by
    simpa [List.contains, List.elem_iff] using ha
  refine ⟨?_, ?_, rfl, rfl⟩ <;> simp [free_result_cstring, reclaim, hc, ha]

theorem c10_witness :
    (free_result_cstring [5, 9] (ResultCString.ok (CPtr.addr 5))).isSome = true
    ∧ (free_result_cstring [5, 9] (ResultCString.err (CPtr.addr 5))).isSome = true
    ∧ free_result_cstring [5, 9] (ResultCString.ok CPtr.null) = some [5, 9]
    ∧ free_result_cstring [5, 9] (ResultCString.err CPtr.null) = some [5, 9] :=
  c10_release_once [5, 9] 5 (by decide)

end TeraFfi
